import Mathlib

/-!
Shallow embedding of `src/app/storage/storage.ts` (ngx-storage): a factory
binding an RxJS BehaviorSubject to a browser key/value store, plus the
LocalStorage / SessionStorage property decorators built on it.

Modelling choices, all taken from the source:
* A browser `Storage` object is a partial map from string keys to string
  values (`Store`), with `getItem` as application, and `setItem` /
  `removeItem` as functional updates.
* `JSON.stringify` / `JSON.parse` are consumed platform capabilities, not
  repository code; following the spec they are modelled as a `Serializer`:
  a total encoder to strings and a partial decoder (`none` models a parse
  throw).  The factory is generic over the app type and the parsed type, so
  a serializer instance is carried for each (standing for JSON at that
  type).
* Published values have type `Option A`: `none` models the JS `value == null`
  (null / undefined) case, `some a` a non-nullish value.
* The BehaviorSubject's permanent subscriber (source lines 40-51) runs
  synchronously on every `next`, including the re-entrant
  `subject.next(fallbackState)` in its null branch and the replay of the
  initial value at `subscribe` time.  This re-entrant recursion is modelled
  by the fuel-indexed function `writeBack`, which also records the list of
  store operations it performs; exhausted fuel (`none` result) models a
  computation that has not terminated within `fuel` re-entrant publishes.
* The TS field `keyPrefix` is rendered as `keyPref`, and the constant
  `STORAGE_KEYS_PREFIX` as `STORAGE_KEYS_PREF` (names shortened for this
  development); their values and uses are unchanged.
-/

namespace NgxStorage

/-- A browser storage object: a partial map from keys to stored strings. -/
def Store : Type := String → Option String

/-- `storage.setItem k v`: functional update of the store. -/
def Store.setItem (s : Store) (k v : String) : Store :=
  fun k' => if k' = k then some v else s k'

/-- `storage.removeItem k`: delete the entry at `k`. -/
def Store.removeItem (s : Store) (k : String) : Store :=
  fun k' => if k' = k then none else s k'

/-- A store with no entries (e.g. after `storage.clear()`). -/
def emptyStore : Store := fun _ => none

/-- One primitive store access performed by the binding. -/
inductive StoreOp : Type
  | get (key : String)
  | set (key : String) (value : String)
  | remove (key : String)
deriving DecidableEq, Repr

/-- Whether a store operation is a pure read (a `getItem`). -/
def StoreOp.isRead : StoreOp → Bool
  | .get _ => true
  | .set _ _ => false
  | .remove _ => false

/-- The `JsonConverter<AppType, ParsedType>` interface of the source. -/
structure JsonConverter (A P : Type) where
  toJson : A → P
  fromJson : P → A

/-- The consumed serialization capability (spec section 6): JSON at one type.
`stringify` is total; `parse` returns `none` where `JSON.parse` would throw. -/
structure Serializer (α : Type) where
  stringify : α → String
  parse : String → Option α

/-- Everything a single binding closes over: the serializers standing for
JSON at the two generic types, the key material, the fallback state and the
optional converter. -/
structure BindingCfg (A P : Type) where
  serA : Serializer A
  serP : Serializer P
  keyPref : String
  storageKey : String
  fallbackState : Option A
  converter : Option (JsonConverter A P)

/-- The namespaced key `keyPrefix + storageKey`. -/
def BindingCfg.fullKey {A P : Type} (cfg : BindingCfg A P) : String :=
  cfg.keyPref ++ cfg.storageKey

/-- Errors thrown by `storageFactory`: the explicit `Error` for an empty
`storageKey`, and a `JSON.parse` throw on the stored string. -/
inductive FactoryError : Type
  | configError (offending : String)
  | decodeError (storedString : String)
deriving DecidableEq, Repr

/-- The serialized form the subscriber writes for a non-nullish value:
`JSON.stringify(converter.toJson(value))` when a converter is present,
`JSON.stringify(value)` otherwise (source lines 45-50). -/
def encodeValue {A P : Type} (cfg : BindingCfg A P) (a : A) : String :=
  match cfg.converter with
  | some c => cfg.serP.stringify (c.toJson a)
  | none => cfg.serA.stringify a

/-- The single store operation the subscriber performs for a published
value: a removal for a nullish value, a write of the serialized value
otherwise. -/
def opFor {A P : Type} (cfg : BindingCfg A P) (value : Option A) : StoreOp :=
  match value with
  | none => StoreOp.remove cfg.fullKey
  | some a => StoreOp.set cfg.fullKey (encodeValue cfg a)

/-- The permanent BehaviorSubject subscriber of `storageFactory`
(source lines 40-51), run on every published value.  For a nullish value it
removes the entry and re-publishes `fallbackState`, which re-enters this
same subscriber (modelled by the recursive call on `fuel`); otherwise it
serializes (through the converter when present) and writes.  Result: the
operations performed, and — unless fuel ran out before the publish
returned — the final store together with the subject's current value. -/
def writeBack {A P : Type} (cfg : BindingCfg A P) :
    Nat → Store → Option A → List StoreOp × Option (Store × Option A)
  | 0, _, _ => ([], none)
  | fuel + 1, store, value =>
    match value with
    | none =>
      let r := writeBack cfg fuel (store.removeItem cfg.fullKey) cfg.fallbackState
      (StoreOp.remove cfg.fullKey :: r.1, r.2)
    | some a =>
      let s := encodeValue cfg a
      ([StoreOp.set cfg.fullKey s], some (store.setItem cfg.fullKey s, some a))

/-- The initial value computed at construction from the stored string
(source lines 27-36): JS truthiness makes both an absent entry and an
empty-string entry fall through to `fallbackState`; a present non-empty
string is parsed, through `converter.fromJson` when a converter is given. -/
def initialValue {A P : Type} (cfg : BindingCfg A P) (storedString : Option String) :
    Except FactoryError (Option A) :=
  match storedString with
  | some s =>
    if s = "" then .ok cfg.fallbackState
    else
      match cfg.converter with
      | some c =>
        match cfg.serP.parse s with
        | some parsedValue => .ok (some (c.fromJson parsedValue))
        | none => .error (.decodeError s)
      | none =>
        match cfg.serA.parse s with
        | some v => .ok (some v)
        | none => .error (.decodeError s)
  | none => .ok cfg.fallbackState

/-- `storageFactory storage keyPrefix (storageKey, fallbackState, converter)`
(source lines 15-55): validate the key, read the stored string, compute the
initial value, create the BehaviorSubject and subscribe the write-back —
the subscribe replays the initial value into the subscriber synchronously,
before the factory returns.  Result: the store operations performed, and
either a thrown error, or (fuel permitting) the final store and the
subject's current value. -/
def storageFactory {A P : Type} (cfg : BindingCfg A P) (fuel : Nat) (storage : Store) :
    List StoreOp × Except FactoryError (Option (Store × Option A)) :=
  if cfg.storageKey = "" then
    ([], .error (.configError cfg.storageKey))
  else
    match initialValue cfg (storage cfg.fullKey) with
    | .error e => ([StoreOp.get cfg.fullKey], .error e)
    | .ok initial =>
      let r := writeBack cfg fuel storage initial
      (StoreOp.get cfg.fullKey :: r.1, .ok r.2)

/-- `subject.next(value)` on an already-constructed binding: the value is
delivered synchronously to the permanent subscriber. -/
def publish {A P : Type} (cfg : BindingCfg A P) (fuel : Nat) (store : Store)
    (value : Option A) : List StoreOp × Option (Store × Option A) :=
  writeBack cfg fuel store value

/-- The constant `STORAGE_KEYS_PREFIX = 'rca_'` of the source. -/
def STORAGE_KEYS_PREF : String := "rca_"

/-- What decorating one property produces: the operations performed at
class-decoration time, the outcome of the single `storageFactory` call
(`outcome`), and the property getter installed with
`Object.defineProperty`, a closure returning the captured subject — the
same one — for every instance the property is read on. -/
structure Decoration (A P : Type) (Inst : Type) where
  ops : List StoreOp
  outcome : Except FactoryError (Option (Store × Option A))
  getter : Inst → Except FactoryError (Option (Store × Option A))

/-- The `LocalStorage` decorator (source lines 74-91): runs
`storageFactory(localStorage, STORAGE_KEYS_PREFIX)` once, at decoration
time, and installs a getter returning the captured subject. -/
def LocalStorage {A P : Type} (serA : Serializer A) (serP : Serializer P)
    (storageKey : String) (fallbackState : Option A)
    (converter : Option (JsonConverter A P)) (localStorage : Store)
    (fuel : Nat) (Inst : Type) : Decoration A P Inst :=
  let cfg : BindingCfg A P :=
    ⟨serA, serP, STORAGE_KEYS_PREF, storageKey, fallbackState, converter⟩
  let r := storageFactory cfg fuel localStorage
  ⟨r.1, r.2, fun _ => r.2⟩

/-- The `SessionStorage` decorator (source lines 108-125): identical to
`LocalStorage` except that it targets the session-scoped store. -/
def SessionStorage {A P : Type} (serA : Serializer A) (serP : Serializer P)
    (storageKey : String) (fallbackState : Option A)
    (converter : Option (JsonConverter A P)) (sessionStorage : Store)
    (fuel : Nat) (Inst : Type) : Decoration A P Inst :=
  let cfg : BindingCfg A P :=
    ⟨serA, serP, STORAGE_KEYS_PREF, storageKey, fallbackState, converter⟩
  let r := storageFactory cfg fuel sessionStorage
  ⟨r.1, r.2, fun _ => r.2⟩

/-! ### Concrete fixtures

A small concrete serializer standing for JSON at `Bool` (stringify is
injective with non-empty output, parse is its partial inverse), and the
date converter of the repository's own tests and README, used to
instantiate theorems on concrete inputs. -/

/-- JSON at `Bool`: `JSON.stringify true = "true"` etc. -/
def boolSerializer : Serializer Bool where
  stringify := fun b => if b then "true" else "false"
  parse := fun s =>
    if s = "true" then some true else if s = "false" then some false else none

/-- A JS `Date`, identified by its millisecond timestamp (`getTime`). -/
structure JsDate : Type where
  time : Int
deriving DecidableEq, Repr

/-- The app-level type `{ date: Date }` of the repository's converter tests. -/
structure DateBox : Type where
  date : JsDate
deriving DecidableEq, Repr

/-- Its stored form `{ date: number }`. -/
structure DateBoxStored : Type where
  date : Int
deriving DecidableEq, Repr

/-- The converter of the tests and README:
`toJson d = { date: d.date.getTime() }`, `fromJson o = { date: new Date(o.date) }`. -/
def dateConverter : JsonConverter DateBox DateBoxStored where
  toJson := fun object => ⟨object.date.time⟩
  fromJson := fun object => ⟨⟨object.date⟩⟩

/-- Decimal digits to a number, for the concrete integer codec below. -/
def digitsToNat : Nat → List Char → Option Nat
  | acc, [] => some acc
  | acc, c :: cs =>
    if '0' ≤ c ∧ c ≤ '9' then digitsToNat (acc * 10 + (c.toNat - '0'.toNat)) cs
    else none

/-- Parse a decimal integer, the partial inverse of `toString` on `Int`. -/
def decInt (s : String) : Option Int :=
  match s.toList with
  | [] => none
  | '-' :: cs =>
    match cs with
    | [] => none
    | _ => (digitsToNat 0 cs).map (fun n => -(n : Int))
  | cs => (digitsToNat 0 cs).map (fun n => (n : Int))

/-- JSON at `DateBoxStored`: the timestamp printed in decimal. -/
def dateStoredSerializer : Serializer DateBoxStored where
  stringify := fun object => toString object.date
  parse := fun s => (decInt s).map (fun n => ⟨n⟩)

/-- JSON at `DateBox` (the no-converter path, never exercised for dates;
present because the factory is generic over both serializers). -/
def dateBoxSerializer : Serializer DateBox where
  stringify := fun object => toString object.date.time
  parse := fun s => (decInt s).map (fun n => ⟨⟨n⟩⟩)

/-- The binding of the repository's first test:
`@LocalStorage('testKey', 'defaultValue')` rendered at `Bool` with
fallback `true`. -/
def cfgBool : BindingCfg Bool Bool :=
  ⟨boolSerializer, boolSerializer, "rca_", "k", some true, none⟩

/-- The same binding with a nullish fallback state. -/
def cfgNullFb : BindingCfg Bool Bool :=
  ⟨boolSerializer, boolSerializer, "rca_", "k", none, none⟩

/-- A converter binding at the date types, fallback `{ date: new Date(7) }`. -/
def cfgDate : BindingCfg DateBox DateBoxStored :=
  ⟨dateBoxSerializer, dateStoredSerializer, "rca_", "k2", some ⟨⟨7⟩⟩,
    some dateConverter⟩

/-- A binding whose `storageKey` is the empty string. -/
def cfgEmptyKey : BindingCfg Bool Bool :=
  ⟨boolSerializer, boolSerializer, "rca_", "", some true, none⟩

/-! ### Basic unfolding lemmas for the write-back subscriber -/

/-- Delivering a non-nullish value to the subscriber: one serialized write,
then the publish returns with the store updated and the value current. -/
lemma writeBack_succ_some {A P : Type} (cfg : BindingCfg A P) (fuel : Nat)
    (store : Store) (a : A) :
    writeBack cfg (fuel + 1) store (some a)
      = ([StoreOp.set cfg.fullKey (encodeValue cfg a)],
         some (store.setItem cfg.fullKey (encodeValue cfg a), some a)) := rfl

/-- Delivering a nullish value to the subscriber: one removal, then the
re-entrant `subject.next(fallbackState)` carries on. -/
lemma writeBack_succ_none {A P : Type} (cfg : BindingCfg A P) (fuel : Nat)
    (store : Store) :
    writeBack cfg (fuel + 1) store none
      = (StoreOp.remove cfg.fullKey
           :: (writeBack cfg fuel (store.removeItem cfg.fullKey) cfg.fallbackState).1,
         (writeBack cfg fuel (store.removeItem cfg.fullKey) cfg.fallbackState).2) := rfl

/-- The subscriber never reads the store: its trace has no `get`. -/
lemma writeBack_countP_isRead {A P : Type} (cfg : BindingCfg A P) :
    ∀ (fuel : Nat) (store : Store) (value : Option A),
      ((writeBack cfg fuel store value).1.countP (fun op => op.isRead)) = 0 := by
  intro fuel
  induction fuel with
  | zero => intro store value; rfl
  | succ n ih =>
    intro store value
    cases value with
    | none =>
      rw [writeBack_succ_none]
      simp only [List.countP_cons, StoreOp.isRead, cond_false]
      exact ih _ _
    | some a =>
      rw [writeBack_succ_some]
      rfl

/-- Unfolding the factory past its validation and read, given a
non-empty key and a successfully computed initial value. -/
lemma storageFactory_ok {A P : Type} (cfg : BindingCfg A P) (fuel : Nat)
    (storage : Store) (initial : Option A)
    (hkey : ¬ cfg.storageKey = "")
    (hinit : initialValue cfg (storage cfg.fullKey) = .ok initial) :
    storageFactory cfg fuel storage
      = (StoreOp.get cfg.fullKey :: (writeBack cfg fuel storage initial).1,
         .ok (writeBack cfg fuel storage initial).2) := by
  unfold storageFactory
  rw [if_neg hkey, hinit]

/-- Unfolding the initial-value computation on a present stored string. -/
lemma initialValue_some_eq {A P : Type} (cfg : BindingCfg A P) (s : String) :
    initialValue cfg (some s)
      = if s = "" then .ok cfg.fallbackState
        else
          match cfg.converter with
          | some c =>
            match cfg.serP.parse s with
            | some parsedValue => .ok (some (c.fromJson parsedValue))
            | none => .error (.decodeError s)
          | none =>
            match cfg.serA.parse s with
            | some v => .ok (some v)
            | none => .error (.decodeError s) := rfl

/-- Initial value from a truthy stored string without a converter. -/
lemma initialValue_no_conv {A P : Type} (cfg : BindingCfg A P) (s : String)
    (hne : ¬ s = "") (hconv : cfg.converter = none) :
    initialValue cfg (some s)
      = match cfg.serA.parse s with
        | some v => .ok (some v)
        | none => .error (.decodeError s) := by
  rw [initialValue_some_eq, if_neg hne, hconv]

/-- Initial value from a truthy stored string through a converter. -/
lemma initialValue_conv {A P : Type} (cfg : BindingCfg A P) (s : String)
    (c : JsonConverter A P) (hne : ¬ s = "") (hconv : cfg.converter = some c) :
    initialValue cfg (some s)
      = match cfg.serP.parse s with
        | some parsedValue => .ok (some (c.fromJson parsedValue))
        | none => .error (.decodeError s) := by
  rw [initialValue_some_eq, if_neg hne, hconv]

/-! ### C7: empty-key construction -/

/-- C7: constructing a binding with an empty-string `storageKey` fails
synchronously with the configuration error carrying the offending value,
and the operation trace is empty — no store read, write or removal happens
before the throw. -/
theorem c7_theorem {A P : Type} (cfg : BindingCfg A P) (fuel : Nat)
    (storage : Store) (hkey : cfg.storageKey = "") :
    storageFactory cfg fuel storage
      = ([], .error (.configError cfg.storageKey)) := by
  unfold storageFactory
  rw [if_pos hkey]

/-- C7 witness: the empty-key binding, against the empty store. -/
theorem c7_witness :
    storageFactory cfgEmptyKey 2 emptyStore
      = ([], .error (.configError "")) :=
  c7_theorem cfgEmptyKey 2 emptyStore rfl

/-! ### C3: termination of a null publish -/

/-- C3 counterexample: with a nullish fallback state, the subscriber does
not treat the repeated null emission as a terminal no-op after the first
reset — against `cfgNullFb`, each of the first three re-entrant passes of
`publish … none` performs another removal, and the publish has still not
returned. -/
theorem c3_counterexample :
    publish cfgNullFb 3 emptyStore none
      = ([StoreOp.remove cfgNullFb.fullKey, StoreOp.remove cfgNullFb.fullKey,
          StoreOp.remove cfgNullFb.fullKey], none) := rfl

/-- C3 amended: publishing null terminates exactly when the fallback is
non-nullish.  With a nullish fallback the write-back has no guard: for
every bound `fuel`, after `fuel` re-entrant passes it has performed `fuel`
removals and has not returned.  With fallback `some f` the publish returns,
with the current value reset to `f`. -/
theorem c3_theorem {A P : Type} (cfg : BindingCfg A P) :
    (cfg.fallbackState = none →
      ∀ (fuel : Nat) (store : Store),
        publish cfg fuel store none
          = (List.replicate fuel (StoreOp.remove cfg.fullKey), none))
  ∧ (∀ f : A, cfg.fallbackState = some f →
      ∀ (fuel : Nat) (store : Store),
        ((publish cfg (fuel + 2) store none).2.map (fun r => r.2))
          = some (some f)) := by
  constructor
  · intro hfb fuel
    induction fuel with
    | zero => intro store; rfl
    | succ n ih =>
      intro store
      show writeBack cfg (n + 1) store none = _
      rw [writeBack_succ_none, hfb]
      have h := ih (store.removeItem cfg.fullKey)
      simp only [publish] at h
      rw [h, List.replicate_succ]
  · intro f hfb fuel store
    show ((writeBack cfg (fuel + 1 + 1) store none).2.map (fun r => r.2)) = _
    rw [writeBack_succ_none, hfb, writeBack_succ_some]
    rfl

/-- C3 witness: the nullish-fallback binding diverges (two passes shown via
the theorem), and the `some true` fallback binding returns with the
fallback current. -/
theorem c3_witness :
    publish cfgNullFb 2 emptyStore none
      = (List.replicate 2 (StoreOp.remove cfgNullFb.fullKey), none)
  ∧ ((publish cfgBool 2 emptyStore none).2.map (fun r => r.2))
      = some (some true) :=
  ⟨(c3_theorem cfgNullFb).1 rfl 2 emptyStore,
   (c3_theorem cfgBool).2 true rfl 0 emptyStore⟩

/-! ### C4: one store operation per published value -/

/-- C4: every value published to the container synchronously triggers
exactly one store operation attributed to it, before the publish returns:
a non-nullish value performs exactly its one serialized write; a nullish
value performs exactly its one removal, the remaining trace belonging to
the re-published fallback value; and the implicit initial value at
creation time flows through the same write-back, after the single read. -/
theorem c4_theorem {A P : Type} (cfg : BindingCfg A P) :
    (∀ (fuel : Nat) (store : Store) (a : A),
      publish cfg (fuel + 1) store (some a)
        = ([opFor cfg (some a)],
           some (store.setItem cfg.fullKey (encodeValue cfg a), some a)))
  ∧ (∀ (fuel : Nat) (store : Store),
      publish cfg (fuel + 1) store none
        = (opFor cfg none
             :: (publish cfg fuel (store.removeItem cfg.fullKey) cfg.fallbackState).1,
           (publish cfg fuel (store.removeItem cfg.fullKey) cfg.fallbackState).2))
  ∧ (∀ (fuel : Nat) (storage : Store) (initial : Option A),
      ¬ cfg.storageKey = "" →
      initialValue cfg (storage cfg.fullKey) = .ok initial →
      storageFactory cfg fuel storage
        = (StoreOp.get cfg.fullKey :: (publish cfg fuel storage initial).1,
           .ok (publish cfg fuel storage initial).2)) := by
  refine ⟨?_, ?_, ?_⟩
  · intro fuel store a
    exact writeBack_succ_some cfg fuel store a
  · intro fuel store
    exact writeBack_succ_none cfg fuel store
  · intro fuel storage initial hkey hinit
    exact storageFactory_ok cfg fuel storage initial hkey hinit

/-- C4 witness: against the empty store and `cfgBool`, construction is the
single read followed by the trace of publishing the initial value, and a
publish of `some true` is exactly its one write. -/
theorem c4_witness :
    storageFactory cfgBool 1 emptyStore
      = (StoreOp.get cfgBool.fullKey :: (publish cfgBool 1 emptyStore (some true)).1,
         .ok (publish cfgBool 1 emptyStore (some true)).2)
  ∧ publish cfgBool 1 emptyStore (some true)
      = ([opFor cfgBool (some true)],
         some (Store.setItem emptyStore cfgBool.fullKey (encodeValue cfgBool true),
           some true)) :=
  ⟨(c4_theorem cfgBool).2.2 1 emptyStore (some true) (by decide) rfl,
   (c4_theorem cfgBool).1 0 emptyStore true⟩

/-! ### C1: construction against a store with no entry -/

/-- C1 counterexample: against the empty store, constructing `cfgBool`
(non-empty key `"k"`, encodable fallback `true`) performs a write — the
subscribe replays the initial value into the write-back, which stores the
serialized fallback — so construction is not read-only as the claim
states. -/
theorem c1_counterexample :
    (storageFactory cfgBool 2 emptyStore).1
        = [StoreOp.get cfgBool.fullKey, StoreOp.set cfgBool.fullKey "true"]
  ∧ ((storageFactory cfgBool 2 emptyStore).1.all (fun op => op.isRead)) = false := by
  exact ⟨rfl, rfl⟩

/-- C1 amended: for a non-empty key, a non-nullish fallback and a store
with no entry at the namespaced key, construction yields the fallback as
the current value, but it is not read-only: the trace is exactly one read
followed by one write of the serialized fallback, performed synchronously
before construction returns. -/
theorem c1_theorem {A P : Type} (cfg : BindingCfg A P) (fuel : Nat)
    (storage : Store) (f : A) (hkey : ¬ cfg.storageKey = "")
    (habsent : storage cfg.fullKey = none)
    (hfb : cfg.fallbackState = some f) :
    storageFactory cfg (fuel + 1) storage
      = ([StoreOp.get cfg.fullKey, StoreOp.set cfg.fullKey (encodeValue cfg f)],
         .ok (some (storage.setItem cfg.fullKey (encodeValue cfg f), some f))) := by
  have hinit : initialValue cfg (storage cfg.fullKey) = .ok (some f) := by
    rw [habsent]
    unfold initialValue
    rw [hfb]
  rw [storageFactory_ok cfg (fuel + 1) storage (some f) hkey hinit,
    writeBack_succ_some]

/-- C1 witness: `cfgBool` against the empty store. -/
theorem c1_witness :
    storageFactory cfgBool 1 emptyStore
      = ([StoreOp.get cfgBool.fullKey,
          StoreOp.set cfgBool.fullKey (encodeValue cfgBool true)],
         .ok (some (Store.setItem emptyStore cfgBool.fullKey (encodeValue cfgBool true),
           some true))) :=
  c1_theorem cfgBool 0 emptyStore true (by decide) rfl rfl

/-! ### C2 and C9: what a null publish leaves in the store -/

/-- C2 counterexample: publishing null on `cfgBool` over a store holding
`"true"` at the namespaced key returns with the store still holding an
entry there (the rewritten serialized fallback), contradicting the claim
that upon return the store holds no entry. -/
theorem c2_counterexample :
    ((publish cfgBool 2 (Store.setItem emptyStore cfgBool.fullKey "true") none).2.map
        (fun r => r.1 cfgBool.fullKey))
      = some (some "true") := rfl

/-- C2 amended: for a non-nullish fallback, publishing null resets the
current value to the fallback; the entry at the namespaced key is removed,
but the write-back of the re-published fallback immediately rewrites it,
so upon return the store holds the serialized fallback at that key rather
than no entry. -/
theorem c2_theorem {A P : Type} (cfg : BindingCfg A P) (fuel : Nat)
    (store : Store) (f : A) (hfb : cfg.fallbackState = some f) :
    publish cfg (fuel + 2) store none
      = ([StoreOp.remove cfg.fullKey, StoreOp.set cfg.fullKey (encodeValue cfg f)],
         some ((store.removeItem cfg.fullKey).setItem cfg.fullKey (encodeValue cfg f),
           some f)) := by
  show writeBack cfg (fuel + 1 + 1) store none = _
  rw [writeBack_succ_none, hfb, writeBack_succ_some]

/-- C2 witness: publishing null on `cfgBool` over a store holding the key. -/
theorem c2_witness :
    publish cfgBool 2 (Store.setItem emptyStore cfgBool.fullKey "true") none
      = ([StoreOp.remove cfgBool.fullKey,
          StoreOp.set cfgBool.fullKey (encodeValue cfgBool true)],
         some (((Store.setItem emptyStore cfgBool.fullKey "true").removeItem
             cfgBool.fullKey).setItem cfgBool.fullKey (encodeValue cfgBool true),
           some true)) :=
  c2_theorem cfgBool 0 (Store.setItem emptyStore cfgBool.fullKey "true") true rfl

/-- C9: for a non-nullish fallback, after a publish of null returns, the
store holds the serialized fallback at the namespaced key — the removal is
immediately followed, in the same synchronous pass, by the write triggered
by the reset re-publish — and the current value is the fallback. -/
theorem c9_theorem {A P : Type} (cfg : BindingCfg A P) (fuel : Nat)
    (store : Store) (f : A) (hfb : cfg.fallbackState = some f) :
    ∃ st : Store,
      (publish cfg (fuel + 2) store none).2 = some (st, some f)
        ∧ st cfg.fullKey = some (encodeValue cfg f) := by
  refine ⟨(store.removeItem cfg.fullKey).setItem cfg.fullKey (encodeValue cfg f),
    ?_, ?_⟩
  · show (writeBack cfg (fuel + 1 + 1) store none).2 = _
    rw [writeBack_succ_none, hfb, writeBack_succ_some]
  · unfold Store.setItem
    rw [if_pos rfl]

/-- C9 witness: publishing null on `cfgBool` over the empty store. -/
theorem c9_witness :
    ∃ st : Store,
      (publish cfgBool 2 emptyStore none).2 = some (st, some true)
        ∧ st cfgBool.fullKey = some (encodeValue cfgBool true) :=
  c9_theorem cfgBool 0 emptyStore true rfl

/-! ### C5 and C6: round trips -/

/-- C5: round trip without converter.  Publishing a non-nullish value `a`
through a binding whose serialization is reversible at `a` (the spec's
consumed-capability contract) and then constructing a fresh binding with
the same store, prefix and key yields a container whose initial current
value is `a`. -/
theorem c5_theorem {A P : Type} (cfg : BindingCfg A P) (a : A)
    (fuel fuel2 : Nat) (store st' : Store)
    (hconv : cfg.converter = none) (hkey : ¬ cfg.storageKey = "")
    (hrt : cfg.serA.parse (cfg.serA.stringify a) = some a)
    (hne : ¬ cfg.serA.stringify a = "")
    (hpub : (publish cfg (fuel + 1) store (some a)).2 = some (st', some a)) :
    (storageFactory cfg (fuel2 + 1) st').2
      = .ok (some (st'.setItem cfg.fullKey (cfg.serA.stringify a), some a)) := by
  have henc : encodeValue cfg a = cfg.serA.stringify a := by
    unfold encodeValue
    rw [hconv]
  have hps : (publish cfg (fuel + 1) store (some a)).2
      = some (store.setItem cfg.fullKey (cfg.serA.stringify a), some a) := by
    show (writeBack cfg (fuel + 1) store (some a)).2 = _
    rw [writeBack_succ_some, henc]
  rw [hps] at hpub
  have hst' : store.setItem cfg.fullKey (cfg.serA.stringify a) = st' :=
    congrArg Prod.fst (Option.some.inj hpub)
  subst hst'
  have hread : (store.setItem cfg.fullKey (cfg.serA.stringify a)) cfg.fullKey
      = some (cfg.serA.stringify a) := by
    unfold Store.setItem
    rw [if_pos rfl]
  have hinit : initialValue cfg
      ((store.setItem cfg.fullKey (cfg.serA.stringify a)) cfg.fullKey)
      = .ok (some a) := by
    rw [hread, initialValue_no_conv cfg _ hne hconv, hrt]
  rw [storageFactory_ok cfg (fuel2 + 1) _ (some a) hkey hinit,
    writeBack_succ_some, henc]

/-- C5 witness: publish `true` through `cfgBool` against the empty store,
then reconstruct against the published store. -/
theorem c5_witness :
    (storageFactory cfgBool 1
        (Store.setItem emptyStore cfgBool.fullKey (cfgBool.serA.stringify true))).2
      = .ok (some ((Store.setItem emptyStore cfgBool.fullKey
            (cfgBool.serA.stringify true)).setItem cfgBool.fullKey
            (cfgBool.serA.stringify true), some true)) :=
  c5_theorem cfgBool true 0 0 emptyStore
    (Store.setItem emptyStore cfgBool.fullKey (cfgBool.serA.stringify true))
    rfl (by decide) (by decide) (by decide) rfl

/-- C6: round trip with the date converter of the repository's tests.
Publishing `{ date := D }` through a binding carrying `dateConverter`,
with serialization reversible at the stored timestamp, and then
constructing a fresh binding with the same store, prefix, key and
converter yields a container whose initial current value is
`{ date := D }`, the timestamp unchanged. -/
theorem c6_theorem (cfg : BindingCfg DateBox DateBoxStored) (D : JsDate)
    (fuel fuel2 : Nat) (store st' : Store)
    (hconv : cfg.converter = some dateConverter) (hkey : ¬ cfg.storageKey = "")
    (hrt : cfg.serP.parse (cfg.serP.stringify ⟨D.time⟩) = some ⟨D.time⟩)
    (hne : ¬ cfg.serP.stringify ⟨D.time⟩ = "")
    (hpub : (publish cfg (fuel + 1) store (some ⟨D⟩)).2 = some (st', some ⟨D⟩)) :
    (storageFactory cfg (fuel2 + 1) st').2
      = .ok (some (st'.setItem cfg.fullKey (cfg.serP.stringify ⟨D.time⟩),
          some ⟨D⟩)) := by
  have henc : encodeValue cfg ⟨D⟩ = cfg.serP.stringify ⟨D.time⟩ := by
    unfold encodeValue
    rw [hconv]
    rfl
  have hps : (publish cfg (fuel + 1) store (some ⟨D⟩)).2
      = some (store.setItem cfg.fullKey (cfg.serP.stringify ⟨D.time⟩), some ⟨D⟩) := by
    show (writeBack cfg (fuel + 1) store (some ⟨D⟩)).2 = _
    rw [writeBack_succ_some, henc]
  rw [hps] at hpub
  have hst' : store.setItem cfg.fullKey (cfg.serP.stringify ⟨D.time⟩) = st' :=
    congrArg Prod.fst (Option.some.inj hpub)
  subst hst'
  have hread : (store.setItem cfg.fullKey (cfg.serP.stringify ⟨D.time⟩)) cfg.fullKey
      = some (cfg.serP.stringify ⟨D.time⟩) := by
    unfold Store.setItem
    rw [if_pos rfl]
  have hinit : initialValue cfg
      ((store.setItem cfg.fullKey (cfg.serP.stringify ⟨D.time⟩)) cfg.fullKey)
      = .ok (some ⟨D⟩) := by
    rw [hread, initialValue_conv cfg _ dateConverter hne hconv, hrt]
    rfl
  rw [storageFactory_ok cfg (fuel2 + 1) _ (some ⟨D⟩) hkey hinit,
    writeBack_succ_some, henc]

/-- C6 witness: publish `{ date := new Date(7) }` through `cfgDate` against
the empty store, then reconstruct against the published store. -/
theorem c6_witness :
    (storageFactory cfgDate 1
        (Store.setItem emptyStore cfgDate.fullKey
          (cfgDate.serP.stringify ⟨(7 : Int)⟩))).2
      = .ok (some ((Store.setItem emptyStore cfgDate.fullKey
            (cfgDate.serP.stringify ⟨(7 : Int)⟩)).setItem cfgDate.fullKey
            (cfgDate.serP.stringify ⟨(7 : Int)⟩), some ⟨⟨7⟩⟩)) :=
  c6_theorem cfgDate ⟨7⟩ 0 0 emptyStore
    (Store.setItem emptyStore cfgDate.fullKey (cfgDate.serP.stringify ⟨(7 : Int)⟩))
    rfl (by decide) (by decide) (by decide) rfl

/-! ### C8: decode errors at construction time -/

/-- The same binding with the two parse halves of its serializers swapped
out, everything else unchanged — used to state that the write-back never
decodes. -/
def reparse {A P : Type} (cfg : BindingCfg A P) (pA : String → Option A)
    (pP : String → Option P) : BindingCfg A P :=
  ⟨⟨cfg.serA.stringify, pA⟩, ⟨cfg.serP.stringify, pP⟩, cfg.keyPref,
    cfg.storageKey, cfg.fallbackState, cfg.converter⟩

/-- C8: a truthy stored string at the namespaced key that fails to parse
makes construction throw the decode error synchronously, its trace just
the single read — nothing catches or recovers it; and decoding happens
only at construction-time load: the write-back subscriber is unchanged
under any replacement of the parse halves of the serializers. -/
theorem c8_theorem {A P : Type} (cfg : BindingCfg A P) :
    (∀ (fuel : Nat) (storage : Store) (s : String),
      ¬ cfg.storageKey = "" → storage cfg.fullKey = some s → ¬ s = "" →
      (match cfg.converter with
       | some _ => cfg.serP.parse s = none
       | none => cfg.serA.parse s = none) →
      storageFactory cfg fuel storage
        = ([StoreOp.get cfg.fullKey], .error (.decodeError s)))
  ∧ (∀ (pA : String → Option A) (pP : String → Option P) (fuel : Nat)
       (store : Store) (value : Option A),
      writeBack (reparse cfg pA pP) fuel store value
        = writeBack cfg fuel store value) := by
  constructor
  · intro fuel storage s hkey hstored hne hfail
    have hinit : initialValue cfg (storage cfg.fullKey)
        = .error (.decodeError s) := by
      rw [hstored]
      cases hc : cfg.converter with
      | none =>
        have hA : cfg.serA.parse s = none := by rw [hc] at hfail; exact hfail
        rw [initialValue_no_conv cfg s hne hc, hA]
      | some c =>
        have hP : cfg.serP.parse s = none := by rw [hc] at hfail; exact hfail
        rw [initialValue_conv cfg s c hne hc, hP]
    unfold storageFactory
    rw [if_neg hkey, hinit]
  · intro pA pP fuel
    induction fuel with
    | zero => intro store value; rfl
    | succ n ih =>
      intro store value
      cases value with
      | some a => rfl
      | none =>
        have h := ih (store.removeItem cfg.fullKey) cfg.fallbackState
        calc writeBack (reparse cfg pA pP) (n + 1) store none
            = (StoreOp.remove cfg.fullKey
                 :: (writeBack (reparse cfg pA pP) n (store.removeItem cfg.fullKey)
                      cfg.fallbackState).1,
               (writeBack (reparse cfg pA pP) n (store.removeItem cfg.fullKey)
                  cfg.fallbackState).2) := rfl
          _ = (StoreOp.remove cfg.fullKey
                 :: (writeBack cfg n (store.removeItem cfg.fullKey)
                      cfg.fallbackState).1,
               (writeBack cfg n (store.removeItem cfg.fullKey)
                  cfg.fallbackState).2) := by rw [h]
          _ = writeBack cfg (n + 1) store none := rfl

/-- C8 witness: `cfgBool` over a store holding the unparseable string
`"zzz"` at the namespaced key, plus a publish unaffected by replacing both
parse halves with the constantly-throwing parser. -/
theorem c8_witness :
    storageFactory cfgBool 2 (Store.setItem emptyStore cfgBool.fullKey "zzz")
      = ([StoreOp.get cfgBool.fullKey], .error (.decodeError "zzz"))
  ∧ writeBack (reparse cfgBool (fun _ => none) (fun _ => none)) 1 emptyStore
        (some true)
      = writeBack cfgBool 1 emptyStore (some true) :=
  ⟨(c8_theorem cfgBool).1 2 (Store.setItem emptyStore cfgBool.fullKey "zzz") "zzz"
      (by decide) rfl (by decide)
      (show cfgBool.serA.parse "zzz" = none by decide),
   (c8_theorem cfgBool).2 (fun _ => none) (fun _ => none) 1 emptyStore (some true)⟩

/-! ### C10: the decorators create one shared container -/

/-- A successful construction performs exactly one store read. -/
lemma storageFactory_countP_isRead {A P : Type} (cfg : BindingCfg A P)
    (fuel : Nat) (storage : Store) (hkey : ¬ cfg.storageKey = "") :
    ((storageFactory cfg fuel storage).1.countP (fun op => op.isRead)) = 1 := by
  unfold storageFactory
  rw [if_neg hkey]
  cases hinit : initialValue cfg (storage cfg.fullKey) with
  | error e => rfl
  | ok initial =>
    rw [List.countP_cons, writeBack_countP_isRead]
    simp [StoreOp.isRead]

/-- C10: decorating a property with `LocalStorage` or `SessionStorage`
runs `storageFactory` exactly once, at class-decoration time, performing
exactly one store read; the installed getter returns that one captured
container — the single decoration outcome — for every instance and every
access, so all instances share one container and one current value. -/
theorem c10_theorem {A P : Type} (serA : Serializer A) (serP : Serializer P)
    (storageKey : String) (fallbackState : Option A)
    (converter : Option (JsonConverter A P)) (localStore sessionStore : Store)
    (fuel : Nat) (Inst : Type) (hkey : ¬ storageKey = "") :
    (∀ i : Inst,
      (LocalStorage serA serP storageKey fallbackState converter localStore
          fuel Inst).getter i
        = (LocalStorage serA serP storageKey fallbackState converter localStore
            fuel Inst).outcome)
  ∧ ((LocalStorage serA serP storageKey fallbackState converter localStore
        fuel Inst).ops.countP (fun op => op.isRead)) = 1
  ∧ (∀ i : Inst,
      (SessionStorage serA serP storageKey fallbackState converter sessionStore
          fuel Inst).getter i
        = (SessionStorage serA serP storageKey fallbackState converter
            sessionStore fuel Inst).outcome)
  ∧ ((SessionStorage serA serP storageKey fallbackState converter sessionStore
        fuel Inst).ops.countP (fun op => op.isRead)) = 1 := by
  refine ⟨fun _ => rfl, ?_, fun _ => rfl, ?_⟩
  · exact storageFactory_countP_isRead
      ⟨serA, serP, STORAGE_KEYS_PREF, storageKey, fallbackState, converter⟩
      fuel localStore hkey
  · exact storageFactory_countP_isRead
      ⟨serA, serP, STORAGE_KEYS_PREF, storageKey, fallbackState, converter⟩
      fuel sessionStore hkey

/-- C10 witness: the decorated `Bool` binding over a two-instance class. -/
theorem c10_witness :
    ((LocalStorage boolSerializer boolSerializer "k" (some true) none emptyStore
        1 Bool).getter true
      = (LocalStorage boolSerializer boolSerializer "k" (some true) none
          emptyStore 1 Bool).outcome)
  ∧ ((LocalStorage boolSerializer boolSerializer "k" (some true) none emptyStore
        1 Bool).ops.countP (fun op => op.isRead)) = 1
  ∧ ((SessionStorage boolSerializer boolSerializer "k" (some true) none
        emptyStore 1 Bool).getter false
      = (SessionStorage boolSerializer boolSerializer "k" (some true) none
          emptyStore 1 Bool).outcome)
  ∧ ((SessionStorage boolSerializer boolSerializer "k" (some true) none
        emptyStore 1 Bool).ops.countP (fun op => op.isRead)) = 1 := by
  have h := c10_theorem boolSerializer boolSerializer "k" (some true) none
    emptyStore emptyStore 1 Bool (by decide)
  exact ⟨h.1 true, h.2.1, h.2.2.1 false, h.2.2.2⟩

end NgxStorage



